import Mathlib

/-!
Verification development for the HelpDesk application (Google Apps Script).

The definitions below are a shallow embedding of the application's source:
the settings store (`Config.ts` / configuration part), the storage gateway
(`LogManager.js`: `uploadFile`, `processAttachments`), the record store
(`EmailManager.js`: `createCard`, `getCard`, `updateCard` query builder),
the card manager (`deleteCard`), and the inbound message pipeline
(`onMessage` and its channel handlers).

External collaborators (BigQuery, Cloud Storage HTTP calls, the OAuth user
lookup) are modelled as explicit state or oracle parameters.  Functions that
are called by the pipeline but whose definitions are not part of the
repository (`isVerifiedCustomer`, `findOrCreateCustomerCard`,
`createIssueCard`, `findActiveIssueCard`, `updateIssueCard`,
`lookupSlackUserEmail`, `CONFIG.ERROR_TYPES`) are modelled from the spec as
abstract environment components.
-/

namespace HelpDesk

/-- Substring containment: `t` occurs somewhere inside `s`. -/
def strContains (s t : String) : Prop := ∃ l r, s = l ++ t ++ r

/-- Character-list splitter underlying `splitOnChar`. -/
def splitOnCharAux (c : Char) : List Char → List Char → List String
  | [], acc => [String.mk acc.reverse]
  | d :: ds, acc =>
    if d = c then String.mk acc.reverse :: splitOnCharAux c ds []
    else splitOnCharAux c ds (d :: acc)

/-- JavaScript's `s.split(c)` for a single-character separator (used by the
source as `key.split('.')` and `type.split('/')`); `"".split(c)` is `[""]`
and separators at the ends produce empty segments, as in JavaScript. -/
def splitOnChar (c : Char) (s : String) : List String :=
  splitOnCharAux c s.data []

/-- Kernel-computable rendering of `a.startsWith(b)`. -/
def listStartsWith : List Char → List Char → Bool
  | _, [] => true
  | [], _ :: _ => false
  | a :: as, b :: bs => a = b && listStartsWith as bs

/-- JavaScript `s.startsWith(t)`. -/
def strStartsWith (s t : String) : Bool := listStartsWith s.data t.data

/-- JavaScript `s.endsWith(t)`. -/
def strEndsWith (s t : String) : Bool := listStartsWith s.data.reverse t.data.reverse

/-- JavaScript `array.join(sep)` for string arrays. -/
def joinWith (sep : String) : List String → String
  | [] => ""
  | [a] => a
  | a :: b :: rest => a ++ sep ++ joinWith sep (b :: rest)

/-- A JavaScript runtime value, as needed for the settings store and the
configuration object: `undefined`, `null`, booleans, (integer) numbers,
strings, arrays and plain objects (ordered field lists). -/
inductive JsValue where
  | undefined : JsValue
  | null : JsValue
  | bool : Bool → JsValue
  | num : Int → JsValue
  | str : String → JsValue
  | arr : List JsValue → JsValue
  | obj : List (String × JsValue) → JsValue
deriving Repr

/-- Association-list lookup on an object's field list (first match wins,
like JavaScript property lookup on plain data objects). -/
def assocGet : List (String × JsValue) → String → Option JsValue
  | [], _ => none
  | (k', v) :: rest, k => if k' = k then some v else assocGet rest k

/-- Association-list update: replace the first binding of `k`, or append a
new binding when `k` is absent (JavaScript property assignment on a plain
object). -/
def assocSet : List (String × JsValue) → String → JsValue → List (String × JsValue)
  | [], k, x => [(k, x)]
  | (k', v) :: rest, k, x =>
    if k' = k then (k', x) :: rest else (k', v) :: assocSet rest k x

/-- One step of JavaScript property read `obj[k]`: reading a property of
`undefined` or `null` throws a `TypeError`; reading a missing key of an
object yields `undefined`; property reads on primitives and arrays yield
`undefined` (the settings code never reads `length` or numeric indices). -/
def jsGetField : JsValue → String → Except Unit JsValue
  | .undefined, _ => .error ()
  | .null, _ => .error ()
  | .obj fields, k =>
    match assocGet fields k with
    | some v => .ok v
    | none => .ok .undefined
  | _, _ => .ok .undefined

/-- `getSetting(key, defaultValue)` from `Config.ts` (also present as a
plain-JS copy in the configuration source file):
`key.split('.').reduce((obj, k) => obj[k], CONFIG) ?? defaultValue`, with a
`try/catch` that returns the default when the traversal throws.  The `??`
operator substitutes the default for `null` and `undefined` results. -/
def getSetting (config : JsValue) (key : String) (defaultValue : JsValue) : JsValue :=
  match (splitOnChar '.' key).foldlM jsGetField config with
  | .error _ => defaultValue
  | .ok .null => defaultValue
  | .ok .undefined => defaultValue
  | .ok v => v

/-- JavaScript property assignment `target[k] = x` at the end of the
`updateSetting` traversal: assignment on an object updates the field list;
assignment on `undefined`/`null` throws (`false`); assignment on a
primitive or array value is a silent no-op in sloppy mode (`true`, value
unchanged; array extra-properties are not modelled). -/
def jsAssign : JsValue → String → JsValue → Bool × JsValue
  | .obj fields, k, x => (true, .obj (assocSet fields k x))
  | .undefined, _, _ => (false, .undefined)
  | .null, _, _ => (false, .null)
  | v, _, _ => (true, v)

/-- Functional rendering of `updateSetting`'s in-place mutation: navigate
the parent path exactly as `keys.reduce((obj, k) => obj[k], CONFIG)` does,
then perform `target[lastKey] = value`.  Returns the success flag and the
(possibly updated) value; when the navigation or the assignment throws, the
original value is returned unchanged (nothing was mutated). -/
def jsUpdate : JsValue → List String → String → JsValue → Bool × JsValue
  | v, [], k, x => jsAssign v k x
  | v, p :: rest, k, x =>
    match v with
    | .obj fields =>
      let child := (assocGet fields p).getD .undefined
      let r := jsUpdate child rest k x
      if r.1 then (true, .obj (assocSet fields p r.2)) else (false, .obj fields)
    | .undefined => (false, .undefined)
    | .null => (false, .null)
    | w => (false, w)

/-- Split a nonempty list into its leading elements and its last element,
mirroring `const lastKey = keys.pop()` (the empty case is unreachable for
`split('.')` results and returns a dummy). -/
def splitLast : List String → List String × String
  | [] => ([], "")
  | [a] => ([], a)
  | a :: b :: rest =>
    let r := splitLast (b :: rest)
    (a :: r.1, r.2)

/-- `updateSetting(key, value)` from `Config.ts`: split the key on dots,
pop the last segment, navigate the remaining segments from `CONFIG`, and
assign; returns `true` on success and `false` when the traversal or the
assignment throws.  The second component is the settings object after the
call (the source mutates the global `CONFIG` in place). -/
def updateSetting (config : JsValue) (key : String) (value : JsValue) : Bool × JsValue :=
  let ks := splitLast (splitOnChar '.' key)
  jsUpdate config ks.1 ks.2 value

/-- The repository's `CONFIG` object (from the configuration source file /
`Config.ts` initialiser), restricted to scalar and list fields; properties
whose values are only known at deploy time (script properties) carry their
in-repo initialisers (empty strings).  Note all keys are upper-case. -/
def CONFIG : JsValue :=
  .obj
    [ ("PROJECT_ID", .str ""),
      ("DATASET_ID", .str "helpdesk"),
      ("STORAGE_BUCKET", .str ""),
      ("ALLOWED_DOMAINS", .arr [.str "wrench.chat"]),
      ("ADMIN_DOMAIN", .str "wrench.chat"),
      ("EMAIL", .obj
        [ ("ENABLED", .bool true),
          ("PROCESSING_INTERVAL", .num 60),
          ("MAX_ATTACHMENT_SIZE", .num (10 * 1024 * 1024)),
          ("ALLOWED_ATTACHMENT_TYPES", .arr
            [ .str "image/*",
              .str "application/pdf",
              .str "application/msword",
              .str "application/vnd.openxmlformats-officedocument.wordprocessingml.document",
              .str "application/vnd.ms-excel",
              .str "application/vnd.openxmlformats-officedocument.spreadsheetml.sheet",
              .str "text/plain",
              .str "text/csv" ]),
          ("NOTIFICATION_SENDER", .str "HelpDesk Support <support@wrench.chat>") ]),
      ("SLACK", .obj
        [ ("ENABLED", .bool false),
          ("WEBHOOK_URL", .str ""),
          ("CHANNEL_ID", .str ""),
          ("BOT_TOKEN", .str "") ]),
      ("STORAGE", .obj
        [ ("ATTACHMENT_PATH", .str "attachments"),
          ("PROFILE_PATH", .str "profiles"),
          ("TEMP_PATH", .str "temp"),
          ("CLEANUP_AGE", .num 30),
          ("SIGNED_URL_EXPIRY", .num (60 * 60)) ]),
      ("SESSION", .obj
        [ ("DURATION", .num (24 * 60 * 60 * 1000)),
          ("COOKIE_NAME", .str "helpdesk_session") ]),
      ("CARDS", .obj
        [ ("STATUSES", .arr [.str "new", .str "in_progress", .str "resolved", .str "closed"]),
          ("DEFAULT_STATUS", .str "new"),
          ("PRIORITIES", .arr [.str "low", .str "medium", .str "high", .str "urgent"]),
          ("DEFAULT_PRIORITY", .str "medium"),
          ("PAGE_SIZE", .num 50) ]),
      ("SYSTEM", .obj
        [ ("LOG_LEVEL", .str "INFO"),
          ("MAX_RETRIES", .num 3),
          ("RETRY_DELAY", .num 1000),
          ("BATCH_SIZE", .num 100),
          ("CACHE_TTL", .num (5 * 60)),
          ("REQUEST_TIMEOUT", .num 30000),
          ("MAX_CONCURRENT_REQUESTS", .num 10) ]) ]

example : getSetting CONFIG "CARDS.DEFAULT_STATUS" .null = .str "new" := by rfl

example : getSetting CONFIG "email.maxAttachmentSize" .null = .null := by rfl

example :
    (updateSetting CONFIG "SYSTEM.MAX_RETRIES" (.num 5)).1 = true := by rfl

lemma assocGet_assocSet_self (l : List (String × JsValue)) (k : String) (x : JsValue) :
    assocGet (assocSet l k x) k = some x := by
  induction l with
  | nil => simp [assocSet, assocGet]
  | cons hd tl ih =>
    obtain ⟨k', v⟩ := hd
    by_cases hk : k' = k
    · simp [assocSet, hk, assocGet]
    · simp [assocSet, hk, assocGet, ih]

lemma foldlM_jsGetField_undefined (rest : List String) (fields : List (String × JsValue)) :
    rest.foldlM jsGetField JsValue.undefined ≠ Except.ok (JsValue.obj fields) := by
  cases rest with
  | nil => simp [List.foldlM, pure, Except.pure]
  | cons q rs => simp [List.foldlM_cons, jsGetField, Bind.bind, Except.bind]

lemma jsUpdate_spec (k : String) (x : JsValue) :
    ∀ (ps : List String) (cfg : JsValue) (fields : List (String × JsValue)),
      ps.foldlM jsGetField cfg = Except.ok (JsValue.obj fields) →
      (jsUpdate cfg ps k x).1 = true ∧
      ps.foldlM jsGetField (jsUpdate cfg ps k x).2 =
        Except.ok (JsValue.obj (assocSet fields k x)) := by
  intro ps
  induction ps with
  | nil =>
    intro cfg fields h
    simp only [List.foldlM_nil, pure, Except.pure, Except.ok.injEq] at h
    subst h
    exact ⟨rfl, by simp [jsUpdate, jsAssign, List.foldlM_nil, pure, Except.pure]⟩
  | cons p rest ih =>
    intro cfg fields h
    simp only [List.foldlM_cons] at h
    cases hget : jsGetField cfg p with
    | error e =>
      rw [hget] at h
      simp [Bind.bind, Except.bind] at h
    | ok c =>
      rw [hget] at h
      simp only [Bind.bind, Except.bind] at h
      cases cfg with
      | undefined => simp [jsGetField] at hget
      | null => simp [jsGetField] at hget
      | obj f0 =>
        have hchild : (assocGet f0 p).getD JsValue.undefined = c := by
          simp only [jsGetField] at hget
          cases hc : assocGet f0 p <;> rw [hc] at hget <;>
            simp_all [Option.getD]
        obtain ⟨h1, h2⟩ := ih c fields h
        refine ⟨?_, ?_⟩
        · simp [jsUpdate, hchild, h1]
        · simp only [jsUpdate, hchild, h1, if_pos]
          simp only [List.foldlM_cons, jsGetField, assocGet_assocSet_self,
            Bind.bind, Except.bind]
          exact h2
      | bool b =>
        simp only [jsGetField] at hget
        cases hget
        exact absurd h (foldlM_jsGetField_undefined rest fields)
      | num n =>
        simp only [jsGetField] at hget
        cases hget
        exact absurd h (foldlM_jsGetField_undefined rest fields)
      | str s =>
        simp only [jsGetField] at hget
        cases hget
        exact absurd h (foldlM_jsGetField_undefined rest fields)
      | arr xs =>
        simp only [jsGetField] at hget
        cases hget
        exact absurd h (foldlM_jsGetField_undefined rest fields)

lemma splitOnCharAux_ne_nil (c : Char) (l acc : List Char) :
    splitOnCharAux c l acc ≠ [] := by
  induction l generalizing acc with
  | nil => simp [splitOnCharAux]
  | cons d ds ih =>
    by_cases hd : d = c <;> simp [splitOnCharAux, hd, ih]

lemma splitLast_append : ∀ (ks : List String), ks ≠ [] →
    (splitLast ks).1 ++ [(splitLast ks).2] = ks := by
  intro ks
  induction ks with
  | nil => intro h; exact absurd rfl h
  | cons a rest ih =>
    intro _
    cases rest with
    | nil => simp [splitLast]
    | cons b rs =>
      have := ih (by simp)
      simp only [splitLast]
      simpa using congrArg (a :: ·) this

/-- C9: for every dot-notation settings key whose parent path resolves to an
object inside the settings object, and every value that is neither `null`
nor `undefined`, `updateSetting(key, v)` returns `true` and an immediately
following `getSetting(key)` returns `v` (get-after-set round trip of the
settings store). -/
theorem getSetting_after_updateSetting
    (config v : JsValue) (key : String) (fields : List (String × JsValue))
    (hparent : ((splitLast (splitOnChar '.' key)).1).foldlM jsGetField config
        = Except.ok (JsValue.obj fields))
    (hv1 : v ≠ JsValue.null) (hv2 : v ≠ JsValue.undefined) :
    (updateSetting config key v).1 = true ∧
    getSetting (updateSetting config key v).2 key JsValue.null = v := by
  have hne : splitOnChar '.' key ≠ [] := splitOnCharAux_ne_nil '.' key.data []
  have hks := splitLast_append (splitOnChar '.' key) hne
  obtain ⟨h1, h2⟩ := jsUpdate_spec (splitLast (splitOnChar '.' key)).2 v
      (splitLast (splitOnChar '.' key)).1 config fields hparent
  refine ⟨h1, ?_⟩
  have hfold : (splitOnChar '.' key).foldlM jsGetField (updateSetting config key v).2
      = Except.ok v := by
    rw [← hks, List.foldlM_append]
    rw [show (updateSetting config key v).2
        = (jsUpdate config (splitLast (splitOnChar '.' key)).1
            (splitLast (splitOnChar '.' key)).2 v).2 from rfl]
    rw [h2]
    simp [List.foldlM, jsGetField, assocGet_assocSet_self,
      Bind.bind, Except.bind, pure, Except.pure]
  simp only [getSetting, hfold]

/-- C9 witness: updating `SYSTEM.MAX_RETRIES` to `5` in the repository's
configuration object succeeds and reads back as `5`. -/
theorem getSetting_after_updateSetting_witness :
    (updateSetting CONFIG "SYSTEM.MAX_RETRIES" (.num 5)).1 = true ∧
    getSetting (updateSetting CONFIG "SYSTEM.MAX_RETRIES" (.num 5)).2
      "SYSTEM.MAX_RETRIES" JsValue.null = .num 5 :=
  getSetting_after_updateSetting CONFIG (.num 5) "SYSTEM.MAX_RETRIES"
    [ ("LOG_LEVEL", .str "INFO"),
      ("MAX_RETRIES", .num 3),
      ("RETRY_DELAY", .num 1000),
      ("BATCH_SIZE", .num 100),
      ("CACHE_TTL", .num (5 * 60)),
      ("REQUEST_TIMEOUT", .num 30000),
      ("MAX_CONCURRENT_REQUESTS", .num 10) ]
    (by rfl) (by simp) (by simp)

/-! ## Storage gateway: `uploadFile` and `processAttachments` -/

/-- A JavaScript `Error` (or `TypeError`) value: `name`, `message`,
`stack`. -/
structure JsError where
  name : String
  message : String
  stack : String
deriving Repr

/-- An inbound attachment object `{name, content, mimeType, size}`; the
content blob is never inspected by a verified property and is omitted. -/
structure Attachment where
  name : String
  mimeType : String
  size : Int
deriving Repr

/-- Per-file entry pushed onto `processAttachments`' `results` list. -/
structure AttachmentResult where
  name : String
  success : Bool
  url : Option String
  error : Option String
deriving Repr

/-- Result object of `processAttachments`:
`{success: results.every(r => r.success), attachments: results}`. -/
structure ProcessResult where
  success : Bool
  attachments : List AttachmentResult
deriving Repr

/-- JavaScript relational comparison `attachment.size > maxSize` for the
value shapes the settings read can produce: numbers compare numerically,
`null` coerces to `0`, booleans to `0`/`1`, `undefined` gives `NaN` (all
comparisons false); strings and containers are not produced by the
configurations in question and are approximated by `false`. -/
def jsGtNum (n : Int) (v : JsValue) : Bool :=
  match v with
  | .num m => n > m
  | .null => n > 0
  | .bool b => n > (if b then (1 : Int) else 0)
  | _ => false

/-- One allow-list entry check from `processAttachments`: a wildcard entry
`category/*` matches when the MIME type starts with `category + '/'`
(`category` being `type.split('/')[0]`); any other entry matches on exact
MIME equality OR when the file name ends with the entry
(`attachment.mimeType === type || attachment.name.endsWith(type)`). -/
def attachmentTypeMatches (mime name ty : String) : Bool :=
  if strEndsWith ty "/*" then
    strStartsWith mime (((splitOnChar '/' ty).headD "") ++ "/")
  else
    mime = ty || strEndsWith name ty

/-- `allowedTypes.some(type => ...)` over the raw settings value: calling
`.some` on a non-array (for instance the `null` that `getSetting` returns
when the key is absent) throws a `TypeError`; non-string array entries are
not exercised by the repository's configurations and are approximated as
non-matching. -/
def jsSomeTypeMatches (mime name : String) : JsValue → Except Unit Bool
  | .arr xs => .ok (xs.any fun t =>
      match t with
      | .str ty => attachmentTypeMatches mime name ty
      | _ => false)
  | _ => .error ()

/-- The `TypeError` thrown when `.some` is invoked on a non-array
allow-list value. -/
def allowedTypesSomeTypeError : JsError :=
  { name := "TypeError",
    message := "allowedTypes.some is not a function",
    stack := "" }

/-- JavaScript template-string rendering of a value
(interpolation of `${bucket}`). -/
def jsTemplateStr : JsValue → String
  | .str s => s
  | .undefined => "undefined"
  | .null => "null"
  | .num n => toString n
  | .bool b => cond b "true" "false"
  | .arr _ => ""
  | .obj _ => "[object Object]"

/-- `CONFIG.STORAGE_BUCKET` as read by `uploadFile` (rendered into the
upload URL template). -/
def bucketOf (config : JsValue) : String :=
  match jsGetField config "STORAGE_BUCKET" with
  | .ok v => jsTemplateStr v
  | .error _ => "undefined"

/-- Upload result of `uploadFile`: `{success:true, url}` when the PUT
succeeds, `{success:false, error: message}` when the fetch throws. -/
structure UploadResult where
  success : Bool
  url : Option String
  error : Option String
deriving Repr

/-- `uploadFile(file, path)` from the storage gateway: builds
`https://storage.googleapis.com/<bucket>/<path>`, performs the PUT through
`UrlFetchApp.fetch` — modelled by the `fetchPut` oracle, a successful PUT
adding the path to the object store — and catches any fetch error into
`{success:false, error:message}`. -/
def uploadFile (fetchPut : String → Except JsError Unit) (store : List String)
    (bucket : String) (path : String) : List String × UploadResult :=
  let uploadUrl := "https://storage.googleapis.com/" ++ bucket ++ "/" ++ path
  match fetchPut uploadUrl with
  | .ok _ => (store ++ [path], { success := true, url := some uploadUrl, error := none })
  | .error e => (store, { success := false, url := none, error := some e.message })

/-- The per-file `results.push(...)` entries of `processAttachments`:
oversized file. -/
def sizeRejection (a : Attachment) : AttachmentResult :=
  { name := a.name, success := false, url := none,
    error := some "File exceeds maximum size limit" }

/-- The per-file `results.push(...)` entries of `processAttachments`:
disallowed type. -/
def typeRejection (a : Attachment) : AttachmentResult :=
  { name := a.name, success := false, url := none,
    error := some "File type not allowed" }

/-- The per-file `results.push(...)` entry after an upload attempt. -/
def uploadEntry (a : Attachment) (u : UploadResult) : AttachmentResult :=
  { name := a.name, success := u.success, url := u.url, error := u.error }

/-- The `for (const attachment of attachments)` loop of
`processAttachments`, threading the object store; `now` renders the
`Date.now()` component of the storage path. -/
def processAttachmentsLoop (fetchPut : String → Except JsError Unit)
    (maxSize allowedTypes : JsValue) (bucket now cardId : String)
    (store : List String) :
    List Attachment → Except JsError (List String × List AttachmentResult)
  | [] => .ok (store, [])
  | a :: rest =>
    if jsGtNum a.size maxSize then
      (processAttachmentsLoop fetchPut maxSize allowedTypes bucket now cardId
        store rest).map (fun r => (r.1, sizeRejection a :: r.2))
    else
      match jsSomeTypeMatches a.mimeType a.name allowedTypes with
      | .error _ => .error allowedTypesSomeTypeError
      | .ok false =>
        (processAttachmentsLoop fetchPut maxSize allowedTypes bucket now cardId
          store rest).map (fun r => (r.1, typeRejection a :: r.2))
      | .ok true =>
        let path := "attachments/" ++ cardId ++ "/" ++ now ++ "_" ++ a.name
        let su := uploadFile fetchPut store bucket path
        (processAttachmentsLoop fetchPut maxSize allowedTypes bucket now cardId
          su.1 rest).map (fun r => (r.1, uploadEntry a su.2 :: r.2))

/-- `processAttachments(cardId, attachments)` from the storage gateway:
reads `getSetting('email.maxAttachmentSize')` and
`getSetting('email.allowedAttachmentTypes')` (note the lower-case key
paths) plus `CONFIG.STORAGE_BUCKET`, validates and uploads each attachment
in order, and returns
`{success: results.every(r => r.success), attachments: results}`;
an exception thrown inside the loop propagates to the caller. -/
def processAttachments (fetchPut : String → Except JsError Unit)
    (config : JsValue) (now : String) (store : List String)
    (cardId : String) (attachments : List Attachment) :
    Except JsError (List String × ProcessResult) :=
  let maxSize := getSetting config "email.maxAttachmentSize" .null
  let allowedTypes := getSetting config "email.allowedAttachmentTypes" .null
  match processAttachmentsLoop fetchPut maxSize allowedTypes (bucketOf config)
      now cardId store attachments with
  | .error e => .error e
  | .ok (store', results) =>
    .ok (store', { success := results.all (fun r => r.success), attachments := results })

/-- A fetch oracle under which every external HTTP call succeeds. -/
def fetchAlwaysOk : String → Except JsError Unit := fun _ => .ok ()

/-- The per-file outcome of one `processAttachments` loop iteration, as a
function of the attachment alone (valid when the settings reads resolve to
a number and a string array; the upload result does not depend on the store
contents). -/
def processOne (fetchPut : String → Except JsError Unit) (maxSize : Int)
    (allowed : List String) (bucket now cardId : String) (a : Attachment) :
    AttachmentResult :=
  if maxSize < a.size then sizeRejection a
  else if allowed.any (attachmentTypeMatches a.mimeType a.name) then
    uploadEntry a (uploadFile fetchPut [] bucket
      ("attachments/" ++ cardId ++ "/" ++ now ++ "_" ++ a.name)).2
  else typeRejection a

/-- Modelled from the spec's words, for comparison with the source's type
check: a MIME type is "in the allow-list" when some entry matches it
exactly or as a `category/*` wildcard.  (The spec mentions no acceptance
based on the file name.) -/
def specMimeInAllowList (mime : String) (allowed : List String) : Bool :=
  allowed.any fun ty =>
    if strEndsWith ty "/*" then
      strStartsWith mime (((splitOnChar '/' ty).headD "") ++ "/")
    else mime = ty

lemma uploadFile_snd_const (fetchPut : String → Except JsError Unit)
    (s s' : List String) (b p : String) :
    (uploadFile fetchPut s b p).2 = (uploadFile fetchPut s' b p).2 := by
  cases h : fetchPut ("https://storage.googleapis.com/" ++ b ++ "/" ++ p) <;>
    simp [uploadFile, h]

lemma jsSomeTypeMatches_strArr (mime name : String) (allowed : List String) :
    jsSomeTypeMatches mime name (.arr (allowed.map JsValue.str))
      = .ok (allowed.any (attachmentTypeMatches mime name)) := by
  simp only [jsSomeTypeMatches, Except.ok.injEq]
  induction allowed with
  | nil => rfl
  | cons ty rest ih => simp [List.any_cons] at ih ⊢; rw [ih]

lemma processAttachmentsLoop_spec (fetchPut : String → Except JsError Unit)
    (maxSize : Int) (allowed : List String) (bucket now cardId : String) :
    ∀ (atts : List Attachment) (store : List String),
      ∃ store', processAttachmentsLoop fetchPut (.num maxSize)
          (.arr (allowed.map JsValue.str)) bucket now cardId store atts
        = .ok (store', atts.map (processOne fetchPut maxSize allowed bucket now cardId)) := by
  intro atts
  induction atts with
  | nil => intro store; exact ⟨store, rfl⟩
  | cons a rest ih =>
    intro store
    by_cases hs : maxSize < a.size
    · obtain ⟨store', hrest⟩ := ih store
      refine ⟨store', ?_⟩
      simp [processAttachmentsLoop, jsGtNum, hs, hrest, Except.map, processOne]
    · by_cases ht : allowed.any (attachmentTypeMatches a.mimeType a.name)
      · obtain ⟨store', hrest⟩ := ih
          (uploadFile fetchPut store bucket
            ("attachments/" ++ cardId ++ "/" ++ now ++ "_" ++ a.name)).1
        refine ⟨store', ?_⟩
        simp only [processAttachmentsLoop, jsGtNum, hs, decide_eq_true_eq,
          if_neg hs, jsSomeTypeMatches_strArr, ht, hrest, Except.map]
        simp [processOne, hs, ht,
          uploadFile_snd_const fetchPut store [] bucket
            ("attachments/" ++ cardId ++ "/" ++ now ++ "_" ++ a.name)]
      · obtain ⟨store', hrest⟩ := ih store
        refine ⟨store', ?_⟩
        simp only [processAttachmentsLoop, jsGtNum, hs, decide_eq_true_eq,
          if_neg hs, jsSomeTypeMatches_strArr, ht, hrest, Except.map]
        simp [processOne, hs, ht]

/-- Characterization of `processAttachments` when the two settings reads
resolve to a number and a string array: the call returns, its per-file
results are `processOne` applied in order, and the overall flag is the
conjunction of the per-file flags. -/
lemma processAttachments_spec (fetchPut : String → Except JsError Unit)
    (config : JsValue) (now cardId : String) (store : List String)
    (atts : List Attachment) (maxSize : Int) (allowed : List String)
    (hmax : getSetting config "email.maxAttachmentSize" .null = .num maxSize)
    (hall : getSetting config "email.allowedAttachmentTypes" .null
        = .arr (allowed.map JsValue.str)) :
    ∃ store', processAttachments fetchPut config now store cardId atts
      = .ok (store',
          { success := (atts.map (processOne fetchPut maxSize allowed
              (bucketOf config) now cardId)).all (fun r => r.success),
            attachments := atts.map (processOne fetchPut maxSize allowed
              (bucketOf config) now cardId) }) := by
  obtain ⟨store', hloop⟩ := processAttachmentsLoop_spec fetchPut maxSize allowed
    (bucketOf config) now cardId atts store
  refine ⟨store', ?_⟩
  simp [processAttachments, hmax, hall, hloop]

/-- C4: the claim expects every attachment within the configured size limit
and with an allow-listed MIME type to upload with `success:true`.  The code
reads the settings under the lower-case key paths
`email.maxAttachmentSize` / `email.allowedAttachmentTypes`, which do not
exist in `CONFIG` (the configured values live under
`EMAIL.MAX_ATTACHMENT_SIZE` / `EMAIL.ALLOWED_ATTACHMENT_TYPES`), so the
size limit evaluates to `null` and the comparison `size > null` rejects
every attachment of positive size.  Evaluated here at the repository's own
test input (`testProcessAttachments`, which asserts `result.success`): the
1 KiB PDF is within the configured 10 MiB limit and its type is
allow-listed, yet the call reports a size rejection and overall failure. -/
theorem processAttachments_misreads_settings_keys :
    getSetting CONFIG "EMAIL.MAX_ATTACHMENT_SIZE" JsValue.null = .num 10485760 ∧
    getSetting CONFIG "email.maxAttachmentSize" JsValue.null = .null ∧
    (1024 : Int) ≤ 10485760 ∧
    attachmentTypeMatches "application/pdf" "test1.pdf" "application/pdf" = true ∧
    processAttachments fetchAlwaysOk CONFIG "1700000000000" [] "card_123"
        [⟨"test1.pdf", "application/pdf", 1024⟩]
      = .ok ([], ⟨false,
          [⟨"test1.pdf", false, none, some "File exceeds maximum size limit"⟩]⟩) :=
  ⟨by rfl, by rfl, by norm_num, by rfl, by rfl⟩

/-- A configuration object under which the storage gateway's settings
reads resolve (test instantiation with the lower-case key paths the code
asks for; the repository's `CONFIG` nests these limits under upper-case
keys instead). -/
def settingsResolvingConfig : JsValue :=
  .obj
    [ ("STORAGE_BUCKET", .str "bucket-x"),
      ("email", .obj
        [ ("maxAttachmentSize", .num 5242880),
          ("allowedAttachmentTypes", .arr [.str "text/plain"]) ]) ]

/-- C5 counterexample: an attachment whose MIME type matches no allow-list
entry (neither exactly nor as a wildcard) is nevertheless uploaded with
per-file and overall `success:true`, because the source's type check also
accepts any file whose NAME ends with an allow-list entry
(`attachment.name.endsWith(type)`). -/
theorem processAttachments_accepts_disallowed_mime_by_name :
    specMimeInAllowList "application/x-evil" ["text/plain"] = false ∧
    processAttachments fetchAlwaysOk settingsResolvingConfig "123" [] "card_9"
        [⟨"notes.text/plain", "application/x-evil", 10⟩]
      = .ok (["attachments/card_9/123_notes.text/plain"],
          ⟨true,
           [⟨"notes.text/plain", true,
             some "https://storage.googleapis.com/bucket-x/attachments/card_9/123_notes.text/plain",
             none⟩]⟩) :=
  ⟨by rfl, by rfl⟩

/-- C5 (amended): provided the two settings reads resolve to a numeric
limit and a string allow-list, `processAttachments` rejects every
attachment whose size exceeds the limit with a per-file `success:false`
and an error containing "size", rejects every attachment whose MIME type
is not in the allow-list AND whose file name does not end with any
allow-list entry with a per-file `success:false` and an error containing
"type", and in either case reports overall `success:false`. -/
theorem processAttachments_rejections (fetchPut : String → Except JsError Unit)
    (config : JsValue) (now cardId : String) (store : List String)
    (atts : List Attachment) (maxSize : Int) (allowed : List String)
    (hmax : getSetting config "email.maxAttachmentSize" .null = .num maxSize)
    (hall : getSetting config "email.allowedAttachmentTypes" .null
        = .arr (allowed.map JsValue.str)) :
    ∃ store',
      processAttachments fetchPut config now store cardId atts
        = .ok (store',
            { success := (atts.map (processOne fetchPut maxSize allowed
                (bucketOf config) now cardId)).all (fun r => r.success),
              attachments := atts.map (processOne fetchPut maxSize allowed
                (bucketOf config) now cardId) }) ∧
      ∀ a ∈ atts,
        (maxSize < a.size →
          (processOne fetchPut maxSize allowed (bucketOf config) now cardId a).success
              = false ∧
          ∃ e, (processOne fetchPut maxSize allowed (bucketOf config) now cardId a).error
              = some e ∧ strContains e "size") ∧
        (¬ maxSize < a.size → specMimeInAllowList a.mimeType allowed = false →
          (∀ ty ∈ allowed, strEndsWith a.name ty = false) →
          (processOne fetchPut maxSize allowed (bucketOf config) now cardId a).success
              = false ∧
          ∃ e, (processOne fetchPut maxSize allowed (bucketOf config) now cardId a).error
              = some e ∧ strContains e "type") ∧
        ((maxSize < a.size ∨ (specMimeInAllowList a.mimeType allowed = false ∧
            ∀ ty ∈ allowed, strEndsWith a.name ty = false)) →
          (atts.map (processOne fetchPut maxSize allowed (bucketOf config) now cardId)).all
              (fun r => r.success) = false) := by
  obtain ⟨store', hrun⟩ := processAttachments_spec fetchPut config now cardId store
    atts maxSize allowed hmax hall
  refine ⟨store', hrun, ?_⟩
  intro a ha
  have hsizeCase : maxSize < a.size →
      processOne fetchPut maxSize allowed (bucketOf config) now cardId a
        = sizeRejection a := by
    intro h; simp [processOne, h]
  have htypeCase : ¬ maxSize < a.size → specMimeInAllowList a.mimeType allowed = false →
      (∀ ty ∈ allowed, strEndsWith a.name ty = false) →
      processOne fetchPut maxSize allowed (bucketOf config) now cardId a
        = typeRejection a := by
    intro h hspec hnames
    have hanyf : allowed.any (attachmentTypeMatches a.mimeType a.name) = false := by
      refine Bool.eq_false_iff.mpr fun hany => ?_
      obtain ⟨ty, hty, hmatch⟩ := List.any_eq_true.mp hany
      have hg : (if strEndsWith ty "/*" = true then
          strStartsWith a.mimeType (((splitOnChar '/' ty).headD "") ++ "/")
        else decide (a.mimeType = ty)) = false := by
        refine Bool.eq_false_iff.mpr fun hgt => ?_
        have hone : specMimeInAllowList a.mimeType allowed = true := by
          unfold specMimeInAllowList
          refine List.any_eq_true.mpr ⟨ty, hty, ?_⟩
          simpa using hgt
        rw [hspec] at hone
        exact Bool.false_ne_true hone
      have hn := hnames ty hty
      cases hw : strEndsWith ty "/*" <;> simp_all [attachmentTypeMatches]
    simp [processOne, h, hanyf]
  refine ⟨?_, ?_, ?_⟩
  · intro h
    rw [hsizeCase h]
    exact ⟨rfl, "File exceeds maximum size limit", rfl,
      "File exceeds maximum ", " limit", by rfl⟩
  · intro h hspec hnames
    rw [htypeCase h hspec hnames]
    exact ⟨rfl, "File type not allowed", rfl, "File ", " not allowed", by rfl⟩
  · intro hbad
    have hfa : (processOne fetchPut maxSize allowed (bucketOf config) now cardId a).success
        = false := by
      rcases hbad with h | ⟨hspec, hnames⟩
      · rw [hsizeCase h]; rfl
      · by_cases h : maxSize < a.size
        · rw [hsizeCase h]; rfl
        · rw [htypeCase h hspec hnames]; rfl
    refine Bool.eq_false_iff.mpr fun hallt => ?_
    have := List.all_eq_true.mp hallt
      (processOne fetchPut maxSize allowed (bucketOf config) now cardId a)
      (List.mem_map_of_mem _ ha)
    rw [hfa] at this
    exact Bool.false_ne_true this

/-- C5 witness: under a configuration whose settings reads resolve, an
attachment above the size limit gets a per-file error containing "size". -/
theorem processAttachments_rejections_witness :
    ∃ e, (processOne fetchAlwaysOk 5242880 ["text/plain"]
        (bucketOf settingsResolvingConfig) "9" "card_1"
        ⟨"big.pdf", "application/pdf", 6000000⟩).error = some e ∧
      strContains e "size" := by
  obtain ⟨store', hrun, hper⟩ := processAttachments_rejections fetchAlwaysOk
    settingsResolvingConfig "9" "card_1" []
    [⟨"big.pdf", "application/pdf", 6000000⟩] 5242880 ["text/plain"]
    (by rfl) (by rfl)
  exact ((hper ⟨"big.pdf", "application/pdf", 6000000⟩ (by simp)).1 (by norm_num)).2

/-! ## Record store: tables, `createCard`, `getCard`, `updateCard`,
`logActivity`, `deleteCard` -/

/-- A row of the `cards` table (`id`, timestamps, `status`, and the
business fields the call sites supply; absent object keys are `none`). -/
structure CardRow where
  id : String
  created_at : String
  updated_at : String
  status : String
  title : Option String
  created_by : Option String
  labels : Option (List String)
  source : Option String
deriving Repr

/-- A row of the `messages` table. -/
structure MessageRow where
  id : String
  card_id : String
  content : String
  created_by : String
  created_at : String
  type : String
deriving Repr

/-- A row of the `attachments` table. -/
structure AttachmentRow where
  id : String
  card_id : String
  message_id : Option String
  name : String
  storage_path : String
deriving Repr

/-- A row of the `activities` table; `details` is the free-form bag
(modelled as key/optional-value pairs). -/
structure ActivityRow where
  id : String
  created_at : String
  type : String
  user : Option String
  card_id : Option String
  details : List (String × Option String)
deriving Repr

/-- The shared state: the four BigQuery tables plus the Cloud Storage
object store (the set of stored object paths). -/
structure Db where
  cards : List CardRow
  messages : List MessageRow
  attachments : List AttachmentRow
  activities : List ActivityRow
  storage : List String
deriving Repr

/-- The empty state. -/
def emptyDb : Db := ⟨[], [], [], [], []⟩

/-- The argument object of `logActivity` (its `id` and `created_at` are
generated inside). -/
structure ActivityData where
  type : String
  user : Option String
  card_id : Option String := none
  details : List (String × Option String) := []

/-- `logActivity(activity)` from the record store: inserts one row into
`activities` with a generated id and the current timestamp spread with the
given fields. -/
def logActivity (db : Db) (genId now : String) (a : ActivityData) : Db :=
  { db with activities :=
      db.activities ++ [⟨genId, now, a.type, a.user, a.card_id, a.details⟩] }

/-- The argument object of the record store's `createCard`; an `Option`
field is `none` when the corresponding key is absent from the caller's
object literal. -/
structure CardData where
  title : Option String := none
  status : Option String := none
  created_by : Option String := none
  labels : Option (List String) := none
  source : Option String := none

/-- `createCard(cardData)` from the record store: builds
`{id: generateId('card_'), created_at: now, updated_at: now,
status: cardData.status || 'new', ...cardData}` — because the object
spread comes after the `status` default, a `status` key present in
`cardData` wins (even a falsy one), and only an absent key yields the
default `'new'` — inserts the row, logs a `card_created` activity, and
returns the card object.  The generated ids and the timestamp are passed
explicitly (`generateId` is timestamp+random based). -/
def createCard (db : Db) (genCardId genActId now : String) (cardData : CardData) :
    Db × CardRow :=
  let card : CardRow :=
    { id := genCardId, created_at := now, updated_at := now,
      status := cardData.status.getD "new",
      title := cardData.title, created_by := cardData.created_by,
      labels := cardData.labels, source := cardData.source }
  let db1 := { db with cards := db.cards ++ [card] }
  let db2 := logActivity db1 genActId now
    ⟨"card_created", card.created_by, some card.id, [("title", card.title)]⟩
  (db2, card)

/-- `getCard(cardId)` from the record store:
`SELECT * FROM cards WHERE id = @cardId`, returning `rows?.[0] || null`
(rows in table order). -/
def getCard (db : Db) (cardId : String) : Option CardRow :=
  (db.cards.filter (fun c => c.id = cardId)).head?

/-- The dynamic `SET` assignments of the record store's `updateCard`:
`Object.keys(updates).map(key => key + ' = @' + key).join(', ')`. -/
def updateCardSetClause (updateKeys : List String) : String :=
  joinWith ", " (updateKeys.map fun key => key ++ " = @" ++ key)

/-- The SQL text `updateCard(cardId, updates)` sends to the tabular
service (template literal from the record store, whitespace as in the
source): the dynamic assignment list is always followed by
`, updated_at = CURRENT_TIMESTAMP()`. -/
def updateCardQuery (projectId datasetId : String) (updateKeys : List String) : String :=
  "\n    UPDATE `" ++ projectId ++ "." ++ datasetId ++ ".cards`\n    SET " ++
    updateCardSetClause updateKeys ++
    ",\n        updated_at = CURRENT_TIMESTAMP()\n    WHERE id = @cardId\n  "

/-- C6: for an empty patch, `Object.keys({})` is empty, the joined
assignment list is the empty string, and the generated statement reads
`SET , updated_at = CURRENT_TIMESTAMP()` — an empty first `SET` item,
which is a GoogleSQL syntax error, so the tabular service rejects the
query and `updateCard(cardId, {})` throws instead of bumping only
`updated_at` and returning the re-fetched record. -/
theorem updateCard_empty_patch_malformed_query :
    updateCardSetClause [] = "" ∧
    updateCardQuery "proj" "helpdesk" []
      = "\n    UPDATE `proj.helpdesk.cards`\n    SET ,\n        updated_at = CURRENT_TIMESTAMP()\n    WHERE id = @cardId\n  " ∧
    strContains (updateCardQuery "proj" "helpdesk" []) "SET ," :=
  ⟨rfl, by rfl,
   ⟨"\n    UPDATE `proj.helpdesk.cards`\n    ",
    "\n        updated_at = CURRENT_TIMESTAMP()\n    WHERE id = @cardId\n  ",
    by rfl⟩⟩

/-- C7 counterexample: a `createCard` call whose `cardData` carries an
explicit status produces (and immediately fetches) a record whose status
is that explicit value, not the configured default `CARDS.DEFAULT_STATUS`
(`'new'`). -/
theorem createCard_explicit_status_not_default :
    getSetting CONFIG "CARDS.DEFAULT_STATUS" JsValue.null = .str "new" ∧
    getCard (createCard emptyDb "card_1" "activity_1" "2024-01-01T00:00:00Z"
        ⟨some "t", some "in_progress", some "a@wrench.chat", none, none⟩).1 "card_1"
      = some ⟨"card_1", "2024-01-01T00:00:00Z", "2024-01-01T00:00:00Z",
          "in_progress", some "t", some "a@wrench.chat", none, none⟩ ∧
    "in_progress" ≠ "new" :=
  ⟨by rfl, by rfl, by decide⟩

/-- C7 (amended): for every `createCard` whose `cardData` has no `status`
key, fetching the returned id immediately afterwards (with the generated
id fresh) yields exactly the created record, whose status equals the
configured default status `CARDS.DEFAULT_STATUS` and whose `created_at`
equals its `updated_at`. -/
theorem createCard_roundtrip_default_status
    (db : Db) (cid aid now : String) (d : CardData)
    (hstatus : d.status = none)
    (hfresh : ∀ c ∈ db.cards, c.id ≠ cid) :
    getCard (createCard db cid aid now d).1 cid = some (createCard db cid aid now d).2 ∧
    JsValue.str (createCard db cid aid now d).2.status
      = getSetting CONFIG "CARDS.DEFAULT_STATUS" JsValue.null ∧
    (createCard db cid aid now d).2.created_at
      = (createCard db cid aid now d).2.updated_at := by
  refine ⟨?_, ?_, rfl⟩
  · have hnil : db.cards.filter (fun c => decide (c.id = cid)) = [] :=
      List.filter_eq_nil_iff.mpr fun c hc => by simp [hfresh c hc]
    simp [getCard, createCard, logActivity, List.filter_append, hnil]
  · simp [createCard, hstatus]
    rfl

/-- C7 witness: creating a status-less card in the empty store and
fetching it returns the record with the default status and equal
timestamps. -/
theorem createCard_roundtrip_default_status_witness :
    getCard (createCard emptyDb "card_9" "activity_9" "2024-02-02T00:00:00Z"
        ⟨some "Printer broken", none, some "u@wrench.chat", none, some "email"⟩).1
        "card_9"
      = some (createCard emptyDb "card_9" "activity_9" "2024-02-02T00:00:00Z"
        ⟨some "Printer broken", none, some "u@wrench.chat", none, some "email"⟩).2 ∧
    JsValue.str (createCard emptyDb "card_9" "activity_9" "2024-02-02T00:00:00Z"
        ⟨some "Printer broken", none, some "u@wrench.chat", none, some "email"⟩).2.status
      = getSetting CONFIG "CARDS.DEFAULT_STATUS" JsValue.null ∧
    (createCard emptyDb "card_9" "activity_9" "2024-02-02T00:00:00Z"
        ⟨some "Printer broken", none, some "u@wrench.chat", none, some "email"⟩).2.created_at
      = (createCard emptyDb "card_9" "activity_9" "2024-02-02T00:00:00Z"
        ⟨some "Printer broken", none, some "u@wrench.chat", none, some "email"⟩).2.updated_at :=
  createCard_roundtrip_default_status emptyDb "card_9" "activity_9"
    "2024-02-02T00:00:00Z"
    ⟨some "Printer broken", none, some "u@wrench.chat", none, some "email"⟩
    rfl (by simp [emptyDb])

/-- An authenticated user as returned by `getCurrentUser()`. -/
structure User where
  email : String
deriving Repr

/-- The state transformation of `deleteCard`'s success branch: delete the
card's attachment objects from storage, then run the four delete queries
in order, then append the `card_deleted` activity (whose own `card_id`
column is absent — the deleted id lives only in `details`). -/
def deleteCardApply (db : Db) (u : User) (genActId now cardId : String) : Db :=
  let pathRows :=
    (db.attachments.filter (fun a => a.card_id = cardId)).map
      (fun a => a.storage_path)
  let db0 := { db with storage := db.storage.filter (fun p => ¬ p ∈ pathRows) }
  let db1 := { db0 with
    attachments := db0.attachments.filter (fun a => ¬ a.card_id = cardId) }
  let db2 := { db1 with
    messages := db1.messages.filter (fun m => ¬ m.card_id = cardId) }
  let db3 := { db2 with
    activities := db2.activities.filter (fun a => ¬ a.card_id = some cardId) }
  let db4 := { db3 with cards := db3.cards.filter (fun c => ¬ c.id = cardId) }
  logActivity db4 genActId now
    ⟨"card_deleted", some u.email, none, [("card_id", some cardId)]⟩

/-- `deleteCard(cardId)` from the card manager: requires an authenticated
user and the admin gate, reads the attachment rows' `storage_path`s for the
card (`SELECT storage_path FROM attachments WHERE card_id = @cardId`),
deletes each object from storage (`deleteFile`; successful external
DELETEs modelled — the source ignores `deleteFile`'s boolean result), then
applies the cascading deletes and activity log of `deleteCardApply` and
returns `true`.  The `getCurrentUser`/`isAdmin` helpers are not part of the
repository's sources and enter as explicit parameters. -/
def deleteCard (db : Db) (user : Option User) (admin : Bool)
    (genActId now cardId : String) : Except JsError (Db × Bool) :=
  match user with
  | none => .error ⟨"Error", "User not authenticated", ""⟩
  | some u =>
    if ¬ admin then .error ⟨"Error", "Only admins can delete cards", ""⟩
    else .ok (deleteCardApply db u genActId now cardId, true)

/-- C8: a `deleteCard` call by an authenticated admin succeeds and, in the
resulting state, every stored object of the card's attachments is gone
from the object store, no attachment, message or activity row carrying the
card id remains, and a subsequent `getCard` returns not-found. -/
theorem deleteCard_cascades
    (db : Db) (user : Option User) (admin : Bool) (u : User)
    (aid now cardId : String)
    (huser : user = some u) (hadmin : admin = true) :
    ∃ db', deleteCard db user admin aid now cardId = .ok (db', true) ∧
      (∀ a ∈ db.attachments, a.card_id = cardId → a.storage_path ∉ db'.storage) ∧
      db'.attachments.filter (fun a => a.card_id = cardId) = [] ∧
      db'.messages.filter (fun m => m.card_id = cardId) = [] ∧
      db'.activities.filter (fun a => a.card_id = some cardId) = [] ∧
      getCard db' cardId = none := by
  subst huser hadmin
  refine ⟨deleteCardApply db u aid now cardId, by rfl, ?_, ?_, ?_, ?_, ?_⟩
  · intro a ha hcid hmem
    simp only [deleteCardApply, logActivity] at hmem
    have hnot := (List.mem_filter.mp hmem).2
    simp only [decide_not, Bool.not_eq_eq_eq_not, Bool.not_true,
      decide_eq_false_iff_not] at hnot
    exact hnot (List.mem_map_of_mem _ (List.mem_filter.mpr ⟨ha, by simp [hcid]⟩))
  · refine List.filter_eq_nil_iff.mpr fun a hmem => ?_
    simp only [deleteCardApply, logActivity] at hmem
    have h2 := (List.mem_filter.mp hmem).2
    simp_all
  · refine List.filter_eq_nil_iff.mpr fun m hmem => ?_
    simp only [deleteCardApply, logActivity] at hmem
    have h2 := (List.mem_filter.mp hmem).2
    simp_all
  · refine List.filter_eq_nil_iff.mpr fun a hmem => ?_
    simp only [deleteCardApply, logActivity, List.mem_append] at hmem
    rcases hmem with hmem | hmem
    · have h2 := (List.mem_filter.mp hmem).2
      simp_all
    · simp only [List.mem_singleton] at hmem
      subst hmem
      simp
  · unfold getCard
    rw [show (deleteCardApply db u aid now cardId).cards
        = (db.cards.filter (fun c => ¬ c.id = cardId)) from rfl]
    rw [List.filter_filter]
    rw [show (db.cards.filter fun c =>
        decide (c.id = cardId) && decide ¬ c.id = cardId) = [] from
      List.filter_eq_nil_iff.mpr fun c _ => by
        by_cases h : c.id = cardId <;> simp [h]]
    rfl

/-- A sample state with one card, one message, two attachments (with
stored objects) and one activity, all tied to `card_1`. -/
def sampleDb : Db :=
  ⟨[⟨"card_1", "t1", "t1", "new", some "Broken printer", some "u@wrench.chat",
      none, some "email"⟩],
   [⟨"msg_1", "card_1", "hello", "u@wrench.chat", "t1", "initial"⟩],
   [⟨"att_1", "card_1", some "msg_1", "a.pdf", "attachments/card_1/1_a.pdf"⟩,
    ⟨"att_2", "card_1", none, "b.pdf", "attachments/card_1/2_b.pdf"⟩],
   [⟨"activity_1", "t1", "card_created", some "u@wrench.chat", some "card_1", []⟩],
   ["attachments/card_1/1_a.pdf", "attachments/card_1/2_b.pdf"]⟩

/-- C8 witness: deleting `card_1` from the sample state as an
authenticated admin removes its two stored objects and every dependent
row, and the card can no longer be fetched. -/
theorem deleteCard_cascades_witness :
    ∃ db', deleteCard sampleDb (some ⟨"admin@wrench.chat"⟩) true "activity_9"
        "t2" "card_1" = .ok (db', true) ∧
      (∀ a ∈ sampleDb.attachments, a.card_id = "card_1" →
        a.storage_path ∉ db'.storage) ∧
      db'.attachments.filter (fun a => a.card_id = "card_1") = [] ∧
      db'.messages.filter (fun m => m.card_id = "card_1") = [] ∧
      db'.activities.filter (fun a => a.card_id = some "card_1") = [] ∧
      getCard db' "card_1" = none :=
  deleteCard_cascades sampleDb (some ⟨"admin@wrench.chat"⟩) true
    ⟨"admin@wrench.chat"⟩ "activity_9" "t2" "card_1" rfl rfl

/-! ## Ingestion pipeline: `onMessage` and the channel handlers -/

/-- The `data` payload of a standardized response; the keys the pipeline
ever sets are modelled as optional fields (absent key = `none`). -/
structure RespData where
  error : Option String := none
  stack : Option String := none
  sender : Option String := none
  customerCardId : Option String := none
  issueCardId : Option String := none
deriving Repr

/-- The standardized response object built by `createResponse`:
`{status, message, timestamp, data}`. -/
structure Response where
  status : String
  message : String
  timestamp : String
  data : RespData
deriving Repr

/-- `createResponse(status, message, data = {})`: the timestamp is
`new Date().toISOString()`, rendered by the ambient clock `ts`. -/
def createResponse (ts status message : String) (data : RespData) : Response :=
  { status := status, message := message, timestamp := ts, data := data }

/-- Modelled from the spec: the authentication-kind error tag
`CONFIG.ERROR_TYPES.AUTHENTICATION` (the `ERROR_TYPES` table is referenced
by the pipeline but defined nowhere in the repository's sources). -/
def AUTHENTICATION_ERROR_TYPE : String := "AUTHENTICATION"

/-- `handleUnauthorizedSender(sender)`: logs a warning and returns
`createResponse('error', 'Unauthorized sender',
{error: CONFIG.ERROR_TYPES.AUTHENTICATION, sender})`. -/
def handleUnauthorizedSender (ts sender : String) : Response :=
  createResponse ts "error" "Unauthorized sender"
    { error := some AUTHENTICATION_ERROR_TYPE, sender := some sender }

/-- `handleError(error)`: converts a caught exception into
`createResponse('error', error.message, {error: error.name,
stack: error.stack})`. -/
def handleError (ts : String) (e : JsError) : Response :=
  createResponse ts "error" e.message
    { error := some e.name, stack := some e.stack }

/-- The inbound envelope `event.message`:
`{source, sender, content, subject?, channel?, space?, attachments?}`.
`source` is optional (`messageData.source || 'unknown'`); `attachments`
is `none` when the key is absent. -/
structure MessageData where
  source : Option String
  sender : String
  subject : String
  content : String
  channel : String
  space : String
  attachments : Option (List Attachment)
deriving Repr

/-- One element of an issue card's `messages` array as appended by the
chat-like handlers. -/
structure ChatMsg where
  content : String
  timestamp : String
  sender : String
  source : String
deriving Repr

/-- The view of an existing issue card used by the chat-like handlers
(`findActiveIssueCard` result: id plus current `messages` array). -/
structure IssueCardView where
  id : String
  messages : List ChatMsg
deriving Repr

/-- The object literal passed to `createIssueCard` by the channel
handlers. -/
structure IssueCardInput where
  parentCardId : String
  title : String
  content : String
  source : String
  sender : String
  slackChannel : Option String := none
  chatSpace : Option String := none
deriving Repr

/-- The pipeline's environment: the ambient clock, the settings object and
fetch oracle for the attachment step, plus the collaborator functions the
pipeline calls.  `validateConfig` is the configuration check that may
throw.  The remaining functions — modelled from the spec because their
definitions are not part of the repository's sources — are:
`isVerifiedCustomer`, the external authorization predicate;
`lookupSlackUserEmail`, the directory lookup from a Slack user id to an
email (may throw); `findOrCreateCustomerCard` and `createIssueCard`,
record-store writers returning the updated state and the card; and
`findActiveIssueCard` / `updateIssueCard`, the active-issue lookup and
message-append used by the chat-like channels. -/
structure PipelineEnv where
  nowIso : String
  now : String
  config : JsValue
  fetchPut : String → Except JsError Unit
  validateConfig : Except JsError Unit
  isVerifiedCustomer : String → Bool
  lookupSlackUserEmail : String → Except JsError String
  findOrCreateCustomerCard : String → Db → Except JsError (Db × CardRow)
  createIssueCard : IssueCardInput → Db → Except JsError (Db × CardRow)
  findActiveIssueCard : String → String → String → Db → Except JsError (Option IssueCardView)
  updateIssueCard : String → List ChatMsg → Db → Except JsError Db

/-- `handleEmailMessage(messageData)`: verifies the sender, otherwise
finds/creates the customer card, always creates a fresh issue card, then —
only if the envelope carries an `attachments` key — runs
`processAttachments(issueCard.id, attachments)` WITHOUT consuming its
result (only the object-store effect remains), and returns the success
response carrying both card ids. -/
def handleEmailMessage (env : PipelineEnv) (db : Db) (md : MessageData) :
    Except JsError (Db × Response) :=
  let senderEmail := md.sender
  if ¬ env.isVerifiedCustomer senderEmail then
    .ok (db, handleUnauthorizedSender env.nowIso senderEmail)
  else do
    let r1 ← env.findOrCreateCustomerCard senderEmail db
    let r2 ← env.createIssueCard
      ⟨r1.2.id, md.subject, md.content, "email", senderEmail, none, none⟩ r1.1
    match md.attachments with
    | some atts => do
      let r3 ← processAttachments env.fetchPut env.config env.now
        r2.1.storage r2.2.id atts
      return ({ r2.1 with storage := r3.1 },
        createResponse env.nowIso "success" "Email processed"
          { customerCardId := some r1.2.id, issueCardId := some r2.2.id })
    | none =>
      return (r2.1, createResponse env.nowIso "success" "Email processed"
        { customerCardId := some r1.2.id, issueCardId := some r2.2.id })

/-- `handleSlackMessage(messageData)`: resolves the Slack user id to an
email, verifies it, then either appends to the active issue card of the
(customer, slack, channel) scope or creates a new issue card. -/
def handleSlackMessage (env : PipelineEnv) (db : Db) (md : MessageData) :
    Except JsError (Db × Response) := do
  let userEmail ← env.lookupSlackUserEmail md.sender
  if ¬ env.isVerifiedCustomer userEmail then
    return (db, handleUnauthorizedSender env.nowIso userEmail)
  else do
    let r1 ← env.findOrCreateCustomerCard userEmail db
    let ex ← env.findActiveIssueCard r1.2.id "slack" md.channel r1.1
    match ex with
    | some existing => do
      let db3 ← env.updateIssueCard existing.id
        (existing.messages ++ [⟨md.content, env.now, userEmail, "slack"⟩]) r1.1
      return (db3,
        createResponse env.nowIso "success" "Message added to existing issue"
          { customerCardId := some r1.2.id, issueCardId := some existing.id })
    | none => do
      let r2 ← env.createIssueCard
        ⟨r1.2.id, "Slack conversation in " ++ md.channel, md.content, "slack",
          userEmail, some md.channel, none⟩ r1.1
      return (r2.1,
        createResponse env.nowIso "success" "Slack message processed"
          { customerCardId := some r1.2.id, issueCardId := some r2.2.id })

/-- `handleChatMessage(messageData)`: like the Slack handler but the
sender is already an email and the scope key is the chat `space`. -/
def handleChatMessage (env : PipelineEnv) (db : Db) (md : MessageData) :
    Except JsError (Db × Response) :=
  if ¬ env.isVerifiedCustomer md.sender then
    .ok (db, handleUnauthorizedSender env.nowIso md.sender)
  else do
    let r1 ← env.findOrCreateCustomerCard md.sender db
    let ex ← env.findActiveIssueCard r1.2.id "chat" md.space r1.1
    match ex with
    | some existing => do
      let db3 ← env.updateIssueCard existing.id
        (existing.messages ++ [⟨md.content, env.now, md.sender, "chat"⟩]) r1.1
      return (db3,
        createResponse env.nowIso "success" "Message added to existing chat"
          { customerCardId := some r1.2.id, issueCardId := some existing.id })
    | none => do
      let r2 ← env.createIssueCard
        ⟨r1.2.id, "Chat conversation in " ++ md.space, md.content, "chat",
          md.sender, none, some md.space⟩ r1.1
      return (r2.1,
        createResponse env.nowIso "success" "Chat message processed"
          { customerCardId := some r1.2.id, issueCardId := some r2.2.id })

/-- `handleGenericMessage(messageData)`: unknown sources only log and
report success. -/
def handleGenericMessage (env : PipelineEnv) (db : Db) (_md : MessageData) :
    Except JsError (Db × Response) :=
  .ok (db, createResponse env.nowIso "success" "Generic message processed" {})

/-- The body of `onMessage` before its top-level `try/catch`: run
`validateConfig()`, read `event.message` (reading `.source` of an absent
message throws a `TypeError`), short-circuit on `source === 'ignore'`,
then dispatch on the source string with unknown sources falling through to
the generic handler. -/
def onMessageBody (env : PipelineEnv) (db : Db) (event : Option MessageData) :
    Except JsError (Db × Response) := do
  let _ ← env.validateConfig
  match event with
  | none => .error ⟨"TypeError", "Cannot read properties of undefined", ""⟩
  | some md =>
    let source := md.source.getD "unknown"
    if source = "ignore" then
      return (db, createResponse env.nowIso "ignored" "Message filtered" {})
    else
      match source with
      | "email" => handleEmailMessage env db md
      | "slack" => handleSlackMessage env db md
      | "chat" => handleChatMessage env db md
      | _ => handleGenericMessage env db md

/-- `onMessage(event)`: the whole pipeline body inside `try { ... }
catch (error) { return handleError(error) }` — the function is total, the
caller always receives a response object.  (Record-store effects performed
before a thrown exception are not modelled in the error case; no verified
claim depends on them.) -/
def onMessage (env : PipelineEnv) (db : Db) (event : Option MessageData) :
    Db × Response :=
  match onMessageBody env db event with
  | .ok r => r
  | .error e => (db, handleError env.nowIso e)

/-- A concrete environment instantiation used to evaluate the pipeline at
specific inputs (witnesses and counterexamples): the collaborators append
deterministic rows, the verification predicate is the constant `verified`,
and the configuration check result `vc` is given. -/
def testEnv (verified : Bool) (cfg : JsValue) (vc : Except JsError Unit) :
    PipelineEnv :=
  { nowIso := "2024-01-01T00:00:00.000Z"
    now := "1700000000000"
    config := cfg
    fetchPut := fetchAlwaysOk
    validateConfig := vc
    isVerifiedCustomer := fun _ => verified
    lookupSlackUserEmail := fun uid => .ok (uid ++ "@wrench.chat")
    findOrCreateCustomerCard := fun em db =>
      let c : CardRow := ⟨"card_cust", "t", "t", "new", none, some em, none, none⟩
      .ok ({ db with cards := db.cards ++ [c] }, c)
    createIssueCard := fun inp db =>
      let c : CardRow := ⟨"card_issue", "t", "t", "new", some inp.title,
        some inp.sender, none, some inp.source⟩
      .ok ({ db with cards := db.cards ++ [c] }, c)
    findActiveIssueCard := fun _ _ _ _ => .ok none
    updateIssueCard := fun _ _ db => .ok db }

/-- C2: `onMessage` is total (its type returns a response object, never a
fault); when the pipeline body returns normally the response is passed
through, and when it throws the exception is converted by the top-level
catch into a structured response whose status is `'error'`, whose message
is the error's message, and whose data carries the error's name and
stack — with the response timestamp filled in as always. -/
theorem onMessage_total_error_conversion (env : PipelineEnv) (db : Db)
    (event : Option MessageData) :
    (∀ r, onMessageBody env db event = .ok r → onMessage env db event = r) ∧
    (∀ e, onMessageBody env db event = .error e →
      (onMessage env db event).2.status = "error" ∧
      (onMessage env db event).2.message = e.message ∧
      (onMessage env db event).2.data.error = some e.name ∧
      (onMessage env db event).2.data.stack = some e.stack ∧
      (onMessage env db event).2.timestamp = env.nowIso ∧
      (onMessage env db event).1 = db) := by
  constructor
  · intro r h
    simp [onMessage, h]
  · intro e h
    simp [onMessage, h, handleError, createResponse]

/-- C2 witness: with a failing configuration check the body throws, and
`onMessage` returns the converted error response. -/
theorem onMessage_total_error_conversion_witness :
    (onMessage (testEnv true CONFIG
        (.error ⟨"Error", "Missing required project setting: PROJECT_ID", "st"⟩))
      emptyDb none).2.status = "error" ∧
    (onMessage (testEnv true CONFIG
        (.error ⟨"Error", "Missing required project setting: PROJECT_ID", "st"⟩))
      emptyDb none).2.message = "Missing required project setting: PROJECT_ID" ∧
    (onMessage (testEnv true CONFIG
        (.error ⟨"Error", "Missing required project setting: PROJECT_ID", "st"⟩))
      emptyDb none).2.data.stack = some "st" := by
  have h := (onMessage_total_error_conversion
    (testEnv true CONFIG
      (.error ⟨"Error", "Missing required project setting: PROJECT_ID", "st"⟩))
    emptyDb none).2
    ⟨"Error", "Missing required project setting: PROJECT_ID", "st"⟩ (by rfl)
  exact ⟨h.1, h.2.1, h.2.2.2.1⟩

/-- C10: an event whose message's source is `'ignore'` short-circuits
before any channel handler runs — for EVERY environment (the handlers are
arbitrary) the result is the `'ignored'` / `'Message filtered'` response
and the state component is returned untouched (no customer, card, message
or attachment record is created), provided only that the configuration
check that runs first does not throw. -/
theorem onMessage_ignore_short_circuit (env : PipelineEnv) (db : Db)
    (md : MessageData)
    (hvc : env.validateConfig = .ok ())
    (hsrc : md.source = some "ignore") :
    onMessage env db (some md)
      = (db, createResponse env.nowIso "ignored" "Message filtered" {}) := by
  simp [onMessage, onMessageBody, hvc, hsrc, Bind.bind, Except.bind,
    pure, Except.pure]

/-- C10 witness: the ignore short-circuit evaluated in a concrete
environment. -/
theorem onMessage_ignore_short_circuit_witness :
    onMessage (testEnv true CONFIG (.ok ())) emptyDb
        (some ⟨some "ignore", "u@wrench.chat", "s", "c", "", "", none⟩)
      = (emptyDb, createResponse "2024-01-01T00:00:00.000Z" "ignored"
          "Message filtered" {}) :=
  onMessage_ignore_short_circuit (testEnv true CONFIG (.ok ())) emptyDb
    ⟨some "ignore", "u@wrench.chat", "s", "c", "", "", none⟩ rfl rfl

/-- C1 counterexample: an envelope with an unrecognized source (`'web'`)
from a sender that fails the verified-customer check does NOT produce an
error response — the pipeline falls through to the generic handler, which
returns status `'success'` (and the check is never consulted). -/
theorem onMessage_unknown_source_unverified_not_error :
    (testEnv false CONFIG (.ok ())).isVerifiedCustomer "eve@evil.example" = false ∧
    onMessage (testEnv false CONFIG (.ok ())) emptyDb
        (some ⟨some "web", "eve@evil.example", "s", "c", "", "", none⟩)
      = (emptyDb, createResponse "2024-01-01T00:00:00.000Z" "success"
          "Generic message processed" {}) ∧
    ("success" : String) ≠ "error" :=
  ⟨rfl, by rfl, by decide⟩

/-- C1 (amended): for every envelope whose source is `email`, `slack` or
`chat`, when the resolved sender identity (the envelope sender for
email/chat; the Slack directory lookup's email for slack) fails the
verified-customer check — and the configuration check that runs first does
not throw — the pipeline returns the unauthorized-sender response: status
`'error'`, data tagged with the authentication error type and naming the
rejected sender, and the state unchanged (no customer card, issue card,
message or attachment record is created). -/
theorem onMessage_unverified_sender_rejected
    (env : PipelineEnv) (db : Db) (md : MessageData) (src rs : String)
    (hvc : env.validateConfig = .ok ())
    (hsrc : md.source = some src)
    (hchan : src = "email" ∨ src = "slack" ∨ src = "chat")
    (hres : (if src = "slack" then env.lookupSlackUserEmail md.sender
        else .ok md.sender) = .ok rs)
    (hver : env.isVerifiedCustomer rs = false) :
    onMessage env db (some md)
      = (db, handleUnauthorizedSender env.nowIso rs) := by
  rcases hchan with h | h | h <;> subst h
  · rw [if_neg (by decide)] at hres
    have h' : md.sender = rs := by injection hres
    subst h'
    simp [onMessage, onMessageBody, hvc, hsrc, handleEmailMessage, hver,
      Bind.bind, Except.bind, pure, Except.pure]
  · rw [if_pos rfl] at hres
    simp [onMessage, onMessageBody, hvc, hsrc, handleSlackMessage, hres, hver,
      Bind.bind, Except.bind, pure, Except.pure]
  · rw [if_neg (by decide)] at hres
    have h' : md.sender = rs := by injection hres
    subst h'
    simp [onMessage, onMessageBody, hvc, hsrc, handleChatMessage, hver,
      Bind.bind, Except.bind, pure, Except.pure]

/-- C1 witness: an unverified email sender is rejected with the
authentication-tagged error response and an unchanged state. -/
theorem onMessage_unverified_sender_rejected_witness :
    onMessage (testEnv false CONFIG (.ok ())) emptyDb
        (some ⟨some "email", "eve@evil.example", "s", "c", "", "", none⟩)
      = (emptyDb,
          handleUnauthorizedSender "2024-01-01T00:00:00.000Z" "eve@evil.example") :=
  onMessage_unverified_sender_rejected (testEnv false CONFIG (.ok ())) emptyDb
    ⟨some "email", "eve@evil.example", "s", "c", "", "", none⟩ "email"
    "eve@evil.example" rfl rfl (Or.inl rfl) (by rfl) rfl

/-- C3 counterexample: an email envelope whose attachment batch FAILS the
storage gateway's validation step (here: the per-file size rejection, with
overall `success:false`) still yields a `'success'` response from the
pipeline — `handleEmailMessage` discards `processAttachments`' result, so
a failing attachment step does not fail the message-processing call; the
issue card is moreover created before the attachment step runs. -/
theorem handleEmail_ignores_attachment_step_failure :
    processAttachments fetchAlwaysOk CONFIG "1700000000000" [] "card_issue"
        [⟨"test1.pdf", "application/pdf", 1024⟩]
      = .ok ([], ⟨false, [⟨"test1.pdf", false, none,
          some "File exceeds maximum size limit"⟩]⟩) ∧
    onMessage (testEnv true CONFIG (.ok ())) emptyDb
        (some ⟨some "email", "u@wrench.chat", "Subj", "Body", "", "",
          some [⟨"test1.pdf", "application/pdf", 1024⟩]⟩)
      = (⟨[⟨"card_cust", "t", "t", "new", none, some "u@wrench.chat", none, none⟩,
           ⟨"card_issue", "t", "t", "new", some "Subj", some "u@wrench.chat",
             none, some "email"⟩], [], [], [], []⟩,
         createResponse "2024-01-01T00:00:00.000Z" "success" "Email processed"
           ⟨none, none, none, some "card_cust", some "card_issue"⟩) :=
  ⟨by rfl, by rfl⟩

/-- C3 (amended): for every email envelope from a verified sender that
carries an `attachments` key, `handleEmailMessage` runs the Storage
Gateway's `processAttachments` on the id of the issue card it has ALREADY
created (the step's object-store effect lands in the final state), and the
call returns the `'success'` response carrying both card ids REGARDLESS of
the attachment step's result — a total or partial failure of the batch
(any `pres`, including overall `success:false`) does not fail the
message-processing call.  (Chat/slack envelopes never invoke the step.) -/
theorem handleEmail_attachment_step_result_ignored
    (env : PipelineEnv) (db db1 db2 : Db) (md : MessageData)
    (cust issue : CardRow) (atts : List Attachment)
    (store' : List String) (pres : ProcessResult)
    (hver : env.isVerifiedCustomer md.sender = true)
    (hatts : md.attachments = some atts)
    (hcust : env.findOrCreateCustomerCard md.sender db = .ok (db1, cust))
    (hissue : env.createIssueCard
        ⟨cust.id, md.subject, md.content, "email", md.sender, none, none⟩ db1
      = .ok (db2, issue))
    (hproc : processAttachments env.fetchPut env.config env.now db2.storage
        issue.id atts = .ok (store', pres)) :
    handleEmailMessage env db md
      = .ok ({ db2 with storage := store' },
          createResponse env.nowIso "success" "Email processed"
            ⟨none, none, none, some cust.id, some issue.id⟩) := by
  simp [handleEmailMessage, hver, hatts, hcust, hissue, hproc,
    Bind.bind, Except.bind, pure, Except.pure]

/-- C3 witness: a concrete email envelope with a failing attachment batch
(the 1 KiB PDF is rejected because the settings keys do not resolve in the
shipped configuration) still gets the success response with both ids. -/
theorem handleEmail_attachment_step_result_ignored_witness :
    handleEmailMessage (testEnv true CONFIG (.ok ())) emptyDb
        ⟨some "email", "u@wrench.chat", "Subj", "Body", "", "",
          some [⟨"test1.pdf", "application/pdf", 1024⟩]⟩
      = .ok (⟨[⟨"card_cust", "t", "t", "new", none, some "u@wrench.chat", none, none⟩,
           ⟨"card_issue", "t", "t", "new", some "Subj", some "u@wrench.chat",
             none, some "email"⟩], [], [], [], []⟩,
          createResponse "2024-01-01T00:00:00.000Z" "success" "Email processed"
            ⟨none, none, none, some "card_cust", some "card_issue"⟩) :=
  handleEmail_attachment_step_result_ignored (testEnv true CONFIG (.ok ()))
    emptyDb
    ⟨[⟨"card_cust", "t", "t", "new", none, some "u@wrench.chat", none, none⟩],
      [], [], [], []⟩
    ⟨[⟨"card_cust", "t", "t", "new", none, some "u@wrench.chat", none, none⟩,
      ⟨"card_issue", "t", "t", "new", some "Subj", some "u@wrench.chat",
        none, some "email"⟩], [], [], [], []⟩
    ⟨some "email", "u@wrench.chat", "Subj", "Body", "", "",
      some [⟨"test1.pdf", "application/pdf", 1024⟩]⟩
    ⟨"card_cust", "t", "t", "new", none, some "u@wrench.chat", none, none⟩
    ⟨"card_issue", "t", "t", "new", some "Subj", some "u@wrench.chat",
      none, some "email"⟩
    [⟨"test1.pdf", "application/pdf", 1024⟩]
    []
    ⟨false, [⟨"test1.pdf", false, none, some "File exceeds maximum size limit"⟩]⟩
    rfl rfl (by rfl) (by rfl) (by rfl)

end HelpDesk
